import Mathlib

/-!
Shallow embedding of the telemetry decoding and session-control core of
`ios_device/cli/instruments.py`, together with theorems settling the frozen
claims about its natural-language specification.

Conventions:
* Python byte strings are `List Nat` (each entry a byte value `< 256`).
* Heterogeneous Python values appearing in frames are the inductive `PyVal`.
* Python exceptions are the inductive `PyErr`; fallible code returns `Except`.
* Python dicts that matter here are ordered association lists
  (`List (String × _)`), matching CPython's insertion-order dicts.
* JSON serialization / printing (`print_json`, `json.dumps`) is the external
  output boundary (spec §1 places output formatting out of scope); an emission
  is therefore modelled as the structured document handed to that boundary.
-/

namespace Instruments

/-- Decidable equality for `Except`, so that concrete runs of the fallible
handlers can be checked by `decide`. -/
instance {ε α : Type} [DecidableEq ε] [DecidableEq α] : DecidableEq (Except ε α) := fun x y =>
  match x, y with
  | .error a, .error b =>
    if h : a = b then isTrue (by rw [h])
    else isFalse (by intro he; injection he with h2; exact h h2)
  | .ok a, .ok b =>
    if h : a = b then isTrue (by rw [h])
    else isFalse (by intro he; injection he with h2; exact h h2)
  | .error _, .ok _ => isFalse (by intro he; cases he)
  | .ok _, .error _ => isFalse (by intro he; cases he)

/-- Heterogeneous Python values carried in telemetry frames. -/
inductive PyVal where
  | int (n : Int)
  | str (s : String)
  | bytes (b : List Nat)
deriving DecidableEq, Repr

/-- Whether a value is a Python int. -/
def PyVal.isIntVal : PyVal → Bool
  | .int _ => true
  | _ => false

/-- The Python exceptions that the modelled code can raise. -/
inductive PyErr where
  | keyError
  | typeError
  | valueError
  | indexError
  | attributeError
deriving DecidableEq, Repr

/-! ### AddressCodec: `SockAddr4` / `SockAddr6` (cmd_networking.on_callback_message)

`SockAddr4` is a ctypes overlay: `len : c_byte` at offset 0, `family : c_byte`
at offset 1, `port : c_uint16` at offset 2 (read in host little-endian order),
`addr : c_byte * 4` at offset 4, `zero : c_byte * 8` (total size 16).
`__str__` renders `inet_ntoa(addr) ++ ":" ++ htons(port)`.
`SockAddr6` adds `flowinfo : c_uint32` at offset 4, `addr : c_byte * 16` at
offset 8 and `scopeid : c_uint32` at offset 24 (total size 28), rendered as
`"[" ++ inet_ntop(AF_INET6, addr) ++ "]:" ++ htons(port)`. -/

/-- A `c_uint16` read from two consecutive bytes in host (little-endian) order. -/
def le16 (lo hi : Nat) : Nat := lo + 256 * hi

/-- `socket.htons` on a 16-bit value: swap the two bytes. -/
def htons (x : Nat) : Nat := (x % 256) * 256 + (x / 256) % 256

/-- `socket.inet_ntoa`: dotted-decimal rendering of 4 address bytes. -/
def inet_ntoa (b : List Nat) : String :=
  toString (b.getD 0 0) ++ "." ++ toString (b.getD 1 0) ++ "." ++
    toString (b.getD 2 0) ++ "." ++ toString (b.getD 3 0)

/-- Lowercase hexadecimal rendering of a 16-bit group (no leading zeros). -/
def hexGroup (n : Nat) : String := (Nat.toDigits 16 n).asString

/-- Length of the run of zero groups starting at index `i`. -/
def zeroRunAt (gs : List Nat) (i : Nat) : Nat :=
  ((gs.drop i).takeWhile (fun g => g = 0)).length

/-- Longest run (leftmost on ties, only runs of length at least 2) of zero
groups, as `(start, length)`; `none` when no such run exists. -/
def bestZeroRun (gs : List Nat) : Option (Nat × Nat) :=
  let best := (List.range gs.length).foldl
    (fun acc i => if zeroRunAt gs i > acc.2 then (i, zeroRunAt gs i) else acc) (0, 0)
  if best.2 ≥ 2 then some best else none

/-- The 8 big-endian 16-bit groups of a 16-byte IPv6 address. -/
def v6Groups (addr : List Nat) : List Nat :=
  (List.range 8).map (fun i => 256 * addr.getD (2 * i) 0 + addr.getD (2 * i + 1) 0)

/-- `socket.inet_ntop(AF_INET6, addr)`: RFC 5952 style rendering — lowercase
hex groups joined by ":", with the longest (leftmost, length ≥ 2) run of zero
groups compressed to "::". The IPv4-mapped special form is not modelled; no
claim depends on the exact IPv6 literal text. -/
def inet_ntop6 (addr : List Nat) : String :=
  let gs := v6Groups addr
  match bestZeroRun gs with
  | none => String.intercalate ":" (gs.map hexGroup)
  | some sl =>
      String.intercalate ":" ((gs.take sl.1).map hexGroup) ++ "::" ++
        String.intercalate ":" ((gs.drop (sl.1 + sl.2)).map hexGroup)

/-- `str(SockAddr4.from_buffer_copy(b))`: dotted IPv4 from bytes 4..7 and
`htons` of the host-order 16-bit port at bytes 2..3. -/
def sockAddr4Str (b : List Nat) : String :=
  inet_ntoa ((b.drop 4).take 4) ++ ":" ++
    toString (htons (le16 (b.getD 2 0) (b.getD 3 0)))

/-- `str(SockAddr6.from_buffer_copy(b))`: bracketed IPv6 literal from bytes
8..23 and `htons` of the host-order 16-bit port at bytes 2..3. -/
def sockAddr6Str (b : List Nat) : String :=
  "[" ++ inet_ntop6 ((b.drop 8).take 16) ++ "]:" ++
    toString (htons (le16 (b.getD 2 0) (b.getD 3 0)))

/-- Follows the spec's words (§4.1, §8): a 16-byte blob decodes by taking a
network-order (big-endian) 2-byte port at offset 2 and 4 raw address bytes at
offset 4, producing "A.B.C.D:port". Used to compare the source's decoder
against the specified contract. -/
def specSockAddr4Str (b : List Nat) : String :=
  toString (b.getD 4 0) ++ "." ++ toString (b.getD 5 0) ++ "." ++
    toString (b.getD 6 0) ++ "." ++ toString (b.getD 7 0) ++ ":" ++
    toString (256 * b.getD 2 0 + b.getD 3 0)

end Instruments

namespace Instruments.cmd_networking

/-- The `headers` table of `cmd_networking`, keyed by category tag. -/
def headersFor (tag : Nat) : Option (List String) :=
  if tag = 0 then some ["InterfaceIndex", "Name"]
  else if tag = 1 then
    some ["LocalAddress", "RemoteAddress", "InterfaceIndex", "Pid", "RecvBufferSize",
          "RecvBufferUsed", "SerialNumber", "Kind"]
  else if tag = 2 then
    some ["RxPackets", "RxBytes", "TxPackets", "TxBytes", "RxDups", "RxOOO", "TxRetx",
          "MinRTT", "AvgRTT", "ConnectionSerial"]
  else none

/-- The `msg_type` table of `cmd_networking`, keyed by category tag; a missing
key raises `KeyError` at the lookup `msg_type[data[0]]`. -/
def msg_type (tag : Nat) : Option String :=
  if tag = 0 then some "interface-detection"
  else if tag = 1 then some "connection-detected"
  else if tag = 2 then some "connection-update"
  else none

/-- `res.parsed` for the networking stream: `data[0]` is the category tag and
`data[1]` the positional value list. -/
structure NetFrame where
  tag : Nat
  values : List PyVal
deriving DecidableEq, Repr

/-- The document handed to `print_json`: the `msg_type` label plus the
name-to-value record `dict(zip(headers[tag], values))` (serialization itself is
the external output boundary). -/
structure NetEmission where
  label : String
  record : List (String × PyVal)
deriving DecidableEq, Repr

/-- `len(v)`: defined for byte strings and text strings; `TypeError` otherwise. -/
def pyLen (v : PyVal) : Except PyErr Nat :=
  match v with
  | .bytes b => .ok b.length
  | .str s => .ok s.length
  | .int _ => .error .typeError

/-- `str(SockAddr4.from_buffer_copy(v))`: requires a bytes-like object
(`TypeError` otherwise) of size at least 16 (`ValueError` otherwise). -/
def fromBufferCopy4 (v : PyVal) : Except PyErr String :=
  match v with
  | .bytes b => if b.length < 16 then .error .valueError else .ok (sockAddr4Str b)
  | _ => .error .typeError

/-- `str(SockAddr6.from_buffer_copy(v))`: requires a bytes-like object
(`TypeError` otherwise) of size at least 28 (`ValueError` otherwise). -/
def fromBufferCopy6 (v : PyVal) : Except PyErr String :=
  match v with
  | .bytes b => if b.length < 28 then .error .valueError else .ok (sockAddr6Str b)
  | _ => .error .typeError

/-- The two in-place assignments `data[1][0] = str(S.from_buffer_copy(data[1][0]))`
and `data[1][1] = str(S.from_buffer_copy(data[1][1]))`, for the layout `dec`
selected by the length of the first blob. -/
def decodeBoth (dec : PyVal → Except PyErr String) (vals : List PyVal) (v0 : PyVal) :
    Except PyErr (List PyVal) :=
  match dec v0 with
  | .error e => .error e
  | .ok s0 =>
    let vals1 := vals.set 0 (.str s0)
    match vals1[1]? with
    | none => .error .indexError
    | some v1 =>
      match dec v1 with
      | .error e => .error e
      | .ok s1 => .ok (vals1.set 1 (.str s1))

/-- The address-decoding phase of `cmd_networking.on_callback_message` for a
`ConnectionDetected` (`data[0] == 1`) frame: the layout is chosen by
`len(data[1][0])` alone (16 chooses `SockAddr4`, 28 chooses `SockAddr6`, any
other length leaves the values untouched). -/
def decodeAddrPhase (vals : List PyVal) : Except PyErr (List PyVal) :=
  match vals[0]? with
  | none => .error .indexError
  | some v0 =>
    match pyLen v0 with
    | .error e => .error e
    | .ok n =>
      if n = 16 then decodeBoth fromBufferCopy4 vals v0
      else if n = 28 then decodeBoth fromBufferCopy6 vals v0
      else .ok vals

/-- `cmd_networking.on_callback_message`, modelled as state passing: the result
carries both the emitted document and the (mutated in place) frame, since the
source assigns through `data = res.parsed` without copying. -/
def on_callback_message (f : NetFrame) : Except PyErr (NetEmission × NetFrame) :=
  match (if f.tag = 1 then decodeAddrPhase f.values else .ok f.values) with
  | .error e => .error e
  | .ok vals =>
    match msg_type f.tag with
    | none => .error .keyError
    | some label =>
      match headersFor f.tag with
      | none => .error .keyError
      | some hs => .ok (⟨label, hs.zip vals⟩, ⟨f.tag, vals⟩)

/-- Modelled from the spec: `rpc.networking` (in `ios_device/cli/base.py`,
outside the provided core source) delivers each inbound frame to the callback
in arrival order. -/
def run (frames : List NetFrame) : List (Except PyErr (NetEmission × NetFrame)) :=
  frames.map on_callback_message

end Instruments.cmd_networking

namespace Instruments.cmd_sysmontap

/-- `attrs.__dict__`: the ordered name-to-value mapping of one process record. -/
abbrev ProcRecord := List (String × PyVal)

/-- `dict.get`-style lookup in an ordered association list. -/
def dictGet (r : ProcRecord) (k : String) : Option PyVal :=
  (r.find? (fun p => p.1 == k)).map (fun p => p.2)

/-- `d[k] = v` on an insertion-ordered dict: overwrite in place when the key
exists, else append. -/
def dictSet (r : List (String × ProcRecord)) (k : String) (v : ProcRecord) :
    List (String × ProcRecord) :=
  if r.any (fun p => p.1 == k) then r.map (fun p => if p.1 == k then (k, v) else p)
  else r ++ [(k, v)]

/-- Conditional `del d[k]` (the source guards each delete with `k in d`). -/
def dictDel (r : List (String × PyVal)) (k : String) : List (String × PyVal) :=
  r.filter (fun p => p.1 ≠ k)

/-- The sort key `d[1].get(sort, 0)` of one `(name, attrs.__dict__)` item:
a missing key (including `sort=None`, which is never a dict key here) falls
back to `0`. -/
def sortKeyVal (sort : Option String) (it : String × ProcRecord) : PyVal :=
  match sort with
  | none => .int 0
  | some s => (dictGet it.2 s).getD (.int 0)

/-- The numeric value of the sort key. Python's comparison is only defined when
the key values are numbers (it raises `TypeError` otherwise); theorems about
the sort therefore carry a numeric-key hypothesis, and non-numeric values are
given an arbitrary rank here. -/
def keyInt (sort : Option String) (it : String × ProcRecord) : Int :=
  match sortKeyVal sort it with
  | .int n => n
  | _ => 0

/-- `sorted(items, key=lambda d: d[1].get(sort, 0), reverse=True)`: Python's
`sorted` is a stable sort, and with `reverse=True` it keeps the original
relative order of items whose keys compare equal; any stable sort computes the
same list, so it is modelled by Mathlib's stable `insertionSort` with the
descending relation. (Line 247's `or 0` variant additionally maps falsy key
values to `0`; for the numeric keys the claims are about, the two agree.) -/
def pySortedDesc (sort : Option String) (l : List (String × ProcRecord)) :
    List (String × ProcRecord) :=
  @List.insertionSort _ (fun a b => keyInt sort b ≤ keyInt sort a)
    (fun a b => Int.decLe (keyInt sort b) (keyInt sort a)) l

/-- The session configuration closed over by `cmd_sysmontap.on_callback_message`. -/
structure Cfg where
  pid : Option Int
  name : Option String
  processesOnly : Bool
  sort : Option String
  procAttrs : List String
  sysAttrs : List String
deriving DecidableEq, Repr

/-- One entry of `row['Processes'].items()`: the pid key and the positional
attribute values. -/
abbrev ProcEntry := Int × List PyVal

/-- One element of `res.parsed`: a dict holding an optional `'Processes'`
mapping, an optional `'System'` value list, and the remaining keys. -/
structure Row where
  extra : List (String × PyVal)
  processes : Option (List ProcEntry)
  system : Option (List PyVal)
deriving DecidableEq, Repr

/-- `data[index]` after the handler's in-place edits: `'Processes'` has become
the sorted item list, `'System'` the zipped name-to-value record. -/
structure RowOut where
  extra : List (String × PyVal)
  processesSorted : Option (List (String × ProcRecord))
  system : Option (List (String × PyVal))
deriving DecidableEq, Repr

/-- `process_attributes(*process)`: the generated dataclass zips field names
with positional values and raises `TypeError` unless the arities match. -/
def buildAttrs (fields : List String) (vals : List PyVal) : Except PyErr ProcRecord :=
  if fields.length = vals.length then .ok (fields.zip vals) else .error .typeError

/-- `attrs.name`: `AttributeError` when `'name'` is not among the fields. -/
def attrName (attrs : ProcRecord) : Except PyErr PyVal :=
  match dictGet attrs "name" with
  | some v => .ok v
  | none => .error .attributeError

/-- `if pid and pid != _pid: continue` — a `None` or `0` pid is falsy and
never filters. -/
def pidSkip (pid : Option Int) (p : Int) : Bool :=
  match pid with
  | none => false
  | some n => n != 0 && n != p

/-- `if name and attrs.name != name: continue` — `attrs.name` is only touched
when the name filter is truthy (non-`None`, non-empty). -/
def nameSkip (name : Option String) (attrs : ProcRecord) : Except PyErr Bool :=
  match name with
  | none => .ok false
  | some s =>
    if s == "" then .ok false
    else
      match dictGet attrs "name" with
      | none => .error .attributeError
      | some v => .ok (v != PyVal.str s)

/-- `f'{attrs.name}'`: the f-string rendering of the name value (the byte-string
case abbreviates CPython's `repr`; record keys are strings in practice). -/
def pyStr (v : PyVal) : String :=
  match v with
  | .str s => s
  | .int n => toString n
  | .bytes b => "b" ++ toString b

/-- The body of the `for _pid, process in row['Processes'].items()` loop for a
single entry. The running state is `(rowProcessesDict, processes_data)`: the
per-row dict written when the processes-only flag is off, and the cross-row
accumulator written when it is on. -/
def procEntryStep (cfg : Cfg)
    (st : List (String × ProcRecord) × List (String × ProcRecord)) (e : ProcEntry) :
    Except PyErr (List (String × ProcRecord) × List (String × ProcRecord)) := do
  let attrs ← buildAttrs cfg.procAttrs e.2
  if pidSkip cfg.pid e.1 then
    return st
  if (← nameSkip cfg.name attrs) then
    return st
  let nv ← attrName attrs
  if cfg.processesOnly then
    return (st.1, dictSet st.2 (pyStr nv) attrs)
  return (dictSet st.1 (pyStr nv) attrs, st.2)

/-- The body of the `for index, row in enumerate(res.parsed)` loop for one row:
process the `'Processes'` dict (ending with the in-place
`data[index]['Processes'] = sorted(...)`), then rebuild `'System'` (deleting
the `'SystemAttributes'` / `'ProcessesAttributes'` keys and zipping the system
schema with the row's values, `zip` truncating to the shorter). -/
def rowStep (cfg : Cfg) (acc : List RowOut × List (String × ProcRecord)) (row : Row) :
    Except PyErr (List RowOut × List (String × ProcRecord)) := do
  let (procOut, pdata) ←
    (match row.processes with
     | none => (.ok (none, acc.2) : Except PyErr (Option (List (String × ProcRecord)) × List (String × ProcRecord)))
     | some entries => do
        let st ← entries.foldlM (procEntryStep cfg) ([], acc.2)
        pure (some (pySortedDesc cfg.sort st.1), st.2))
  let (extraOut, sysOut) :=
    match row.system with
    | none => (row.extra, (none : Option (List (String × PyVal))))
    | some sysVals =>
      (dictDel (dictDel row.extra "SystemAttributes") "ProcessesAttributes",
       some (cfg.sysAttrs.zip sysVals))
  pure (acc.1 ++ [⟨extraOut, procOut, sysOut⟩], pdata)

/-- `res.parsed` as seen by the sysmontap callback: either a Python list of
rows, or something else (in which case the callback does nothing). -/
inductive Parsed where
  | pylist (rows : List Row)
  | other
deriving DecidableEq, Repr

/-- What `cmd_sysmontap.on_callback_message` hands to `print_json`:
either the sorted processes-only document, or — in the branch the spec flags —
the `print_json` function object itself (`print_json(print_json, format)`),
not the decoded `data` document. -/
inductive Emission where
  | processesDoc (items : List (String × ProcRecord))
  | document (rows : List RowOut)
  | printJsonItself
deriving DecidableEq, Repr

/-- `cmd_sysmontap.on_callback_message`: run the row loop, then emit the sorted
`processes_data` when the processes-only flag is set, and otherwise execute
`print_json(print_json, format)` — the decoded row documents are computed and
then discarded. -/
def on_callback_message (cfg : Cfg) (parsed : Parsed) : Except PyErr (Option Emission) :=
  match parsed with
  | .other => .ok none
  | .pylist rows =>
    match rows.foldlM (rowStep cfg) ([], []) with
    | .error e => .error e
    | .ok st =>
      if cfg.processesOnly then .ok (some (.processesDoc (pySortedDesc cfg.sort st.2)))
      else .ok (some .printJsonItself)

/-! ### Session setup (`cmd_sysmontap` body, lines 253-278) -/

/-- CPython's `list(set(xs))`: duplicates removed; the iteration order of a
string set is unspecified (hash-based), modelled here as first-occurrence
order. Theorems never depend on which admissible order this is except where
explicitly robust to every choice. -/
def pyListSet : List String → List String
  | [] => []
  | a :: l => a :: (pyListSet l).filter (fun x => x ≠ a)

/-- The resolved process schema: `proc_filter.split(',')` extended by
`['name', 'pid']` and passed through `list(set(...))`. Note that the result's
order does not consult the device vocabulary at all. -/
def resolvedProcFilter (req : List String) : List String :=
  pyListSet (req ++ ["name", "pid"])

/-- Follows the spec's words (§4.2, §8 and claim C3): the requested subset plus
`pid` and `name` forced in, duplicates removed, in the device-advertised
order — i.e. the device vocabulary filtered to the forced-in subset. -/
def specResolvedProcSchema (vocab req : List String) : List String :=
  vocab.filter (fun a => decide (a ∈ req) || a == "pid" || a == "name")

/-- The first requested name rejected by the `if proc not in data` membership
loop, in iteration order. -/
def firstNotIn (req vocab : List String) : Option String :=
  req.find? (fun a => decide (a ∉ vocab))

/-- Outcome of the `cmd_sysmontap` setup phase. -/
inductive SetupOutcome where
  | unknownAttr (badName : String)
  | streaming (procAttrs sysAttrs : List String)
deriving DecidableEq, Repr

/-- The `sys_filter` phase: validate each requested system attribute against
the device vocabulary (`log.warn` and `return` on the first unknown name),
else stream with the requested (or full) system schema. -/
def sysPhase (sysVocab : List String) (sysReq : Option (List String))
    (procAttrs : List String) : SetupOutcome :=
  match sysReq with
  | none => .streaming procAttrs sysVocab
  | some req =>
    match firstNotIn req sysVocab with
    | some bad => .unknownAttr bad
    | none => .streaming procAttrs req

/-- The setup phase of `cmd_sysmontap`: resolve and validate `proc_filter`
(forcing in `name`/`pid` before the membership check), then `sys_filter`; on
the first unknown name the command warns and returns before
`rpc.sysmontap(on_callback_message, time)` ever runs. When no process subset
is requested, `rpc.process_attributes` defaults to the device vocabulary
(a property of `InstrumentsBase`, per spec §4.2). -/
def setup (procVocab sysVocab : List String)
    (procReq sysReq : Option (List String)) : SetupOutcome :=
  match procReq with
  | none => sysPhase sysVocab sysReq procVocab
  | some req =>
    let pf := resolvedProcFilter req
    match firstNotIn pf procVocab with
    | some bad => .unknownAttr bad
    | none => sysPhase sysVocab sysReq pf

/-- The whole command: when setup fails, the early `return` means the
subscription is never created and no frame is ever delivered; otherwise every
inbound frame is handed to the callback (frame delivery itself is the external
transport). -/
def run (procVocab sysVocab : List String) (procReq sysReq : Option (List String))
    (cfg : Cfg) (frames : List Parsed) : List (Except PyErr (Option Emission)) :=
  match setup procVocab sysVocab procReq sysReq with
  | .unknownAttr _ => []
  | .streaming pa sa =>
    frames.map (on_callback_message { cfg with procAttrs := pa, sysAttrs := sa })

end Instruments.cmd_sysmontap

namespace Instruments.stackshot

/-- The 4-byte core-dump signature `b'\x07X\xa2Y'`. -/
def signature : List Nat := [7, 88, 162, 89]

/-- One inbound stackshot message: whether `res.plist` is an
`InstrumentRPCParseError`, and the raw selector bytes. -/
structure Frame where
  plistParseError : Bool
  selector : List Nat
deriving DecidableEq, Repr

/-- The decoded nested core-dump structure; exactly one is produced per
successful session. -/
structure CoreDumpRecord where
  payload : List Nat
deriving DecidableEq, Repr

/-- Modelled from the spec: `kc_data_parse` (the structured binary-tree decoder
in `ios_device/util/kc_data.py`) is not part of the provided core source; per
spec §4.7 it decodes the signature-bearing buffer into one nested
`CoreDumpRecord`. -/
def kc_data_parse (buf : List Nat) : CoreDumpRecord := ⟨buf⟩

/-- `buf.startswith(sig)`. -/
def pyStartsWith (buf sig : List Nat) : Bool := buf.take sig.length == sig

/-- `stackshot.on_callback_message`: on a parse-error frame whose selector
starts with the signature, set the stop event and emit the decoded record;
otherwise do nothing. Returns (stop-event-set, emission). -/
def on_callback_message (f : Frame) : Bool × Option CoreDumpRecord :=
  if f.plistParseError then
    if pyStartsWith f.selector signature then (true, some (kc_data_parse f.selector))
    else (false, none)
  else (false, none)

/-- Modelled from the spec: `rpc.core_profile_session` (in
`ios_device/cli/base.py`, outside the provided core source) delivers frames to
the callback in order and checks the shared stop event before each frame; once
the event is set, further frames are ignored (spec §4.6, §5). Returns the
final stop flag and the emitted records. -/
def core_profile_session : Bool → List Frame → Bool × List CoreDumpRecord
  | stopped, [] => (stopped, [])
  | stopped, f :: fs =>
    if stopped then core_profile_session stopped fs
    else
      let r := on_callback_message f
      let rest := core_profile_session (stopped || r.1) fs
      (rest.1, r.2.toList ++ rest.2)

end Instruments.stackshot

namespace Instruments

open Instruments.cmd_networking in
/-- C7: for every 16-byte address blob (given here by its 16 byte values, the
two port bytes being genuine bytes), the source decoder — a host-order
little-endian 16-bit read at offset 2 followed by `htons`, plus 4 raw address
bytes at offset 4 — produces exactly the specified "A.B.C.D:port" string with
the port read in network (big-endian) order; in particular the blob with
family 2, port bytes 0x1F 0x90 and address bytes 127.0.0.1 decodes to
"127.0.0.1:8080". -/
theorem sockaddr4_decode_network_order_port
    (b0 b1 b2 b3 b4 b5 b6 b7 b8 b9 b10 b11 b12 b13 b14 b15 : Nat)
    (h2 : b2 < 256) (h3 : b3 < 256) :
    sockAddr4Str [b0, b1, b2, b3, b4, b5, b6, b7, b8, b9, b10, b11, b12, b13, b14, b15] =
      specSockAddr4Str [b0, b1, b2, b3, b4, b5, b6, b7, b8, b9, b10, b11, b12, b13, b14, b15] ∧
    sockAddr4Str [16, 2, 31, 144, 127, 0, 0, 1, 0, 0, 0, 0, 0, 0, 0, 0] = "127.0.0.1:8080" := by
  constructor
  · have hport : htons (le16 b2 b3) = 256 * b2 + b3 := by
      unfold htons le16
      omega
    simp [sockAddr4Str, specSockAddr4Str, inet_ntoa, hport]
  · rfl

/-- C7 witness: the theorem instantiated at the concrete 16-byte blob. -/
theorem sockaddr4_decode_witness :
    ((31 : Nat) < 256 ∧ (144 : Nat) < 256) ∧
    (sockAddr4Str [16, 2, 31, 144, 127, 0, 0, 1, 0, 0, 0, 0, 0, 0, 0, 0] =
        specSockAddr4Str [16, 2, 31, 144, 127, 0, 0, 1, 0, 0, 0, 0, 0, 0, 0, 0] ∧
      sockAddr4Str [16, 2, 31, 144, 127, 0, 0, 1, 0, 0, 0, 0, 0, 0, 0, 0] = "127.0.0.1:8080") :=
  ⟨⟨by decide, by decide⟩,
    sockaddr4_decode_network_order_port 16 2 31 144 127 0 0 1 0 0 0 0 0 0 0 0
      (by decide) (by decide)⟩

open Instruments.cmd_networking in
/-- C10: for a `ConnectionDetected` frame the address layout is selected solely
from the length of the first blob; when the first blob selects the 28-byte
IPv6 layout and the second blob is shorter than 28 bytes,
`SockAddr6.from_buffer_copy` on the second blob raises `ValueError` — the
handler errors out and no record is produced. -/
theorem second_blob_shorter_raises_value_error
    (b0 b1 : List Nat) (rest : List PyVal)
    (h0 : b0.length = 28) (h1 : b1.length < 28) :
    cmd_networking.on_callback_message ⟨1, .bytes b0 :: .bytes b1 :: rest⟩ =
      .error .valueError := by
  unfold cmd_networking.on_callback_message
  simp [decodeAddrPhase, pyLen, h0, decodeBoth, fromBufferCopy6, h1]

open Instruments.cmd_networking in
/-- C10 witness: the theorem instantiated at a concrete 28-byte first blob and
16-byte second blob. -/
theorem second_blob_shorter_witness :
    (([28, 30, 0, 80] ++ List.replicate 24 0).length = 28 ∧
      ([16, 2, 31, 144, 127, 0, 0, 1, 0, 0, 0, 0, 0, 0, 0, 0] : List Nat).length < 28) ∧
    cmd_networking.on_callback_message
        ⟨1, [.bytes ([28, 30, 0, 80] ++ List.replicate 24 0),
             .bytes [16, 2, 31, 144, 127, 0, 0, 1, 0, 0, 0, 0, 0, 0, 0, 0]]⟩ =
      .error .valueError :=
  ⟨⟨by decide, by decide⟩,
    second_blob_shorter_raises_value_error ([28, 30, 0, 80] ++ List.replicate 24 0)
      [16, 2, 31, 144, 127, 0, 0, 1, 0, 0, 0, 0, 0, 0, 0, 0]
      [] (by decide) (by decide)⟩

/-- C5 counterexample: a frame with the unknown tag 3 is not reported as
`UnknownCategory` and dropped with the session continuing — the handler
raises `KeyError` at the `msg_type[data[0]]` lookup and produces nothing. -/
theorem unknown_tag_raises_key_error_cex :
    cmd_networking.on_callback_message ⟨3, [.int 0, .int 1]⟩ = .error .keyError := by
  decide

open Instruments.cmd_networking in
/-- C5 (amended): for every frame whose tag is not 0, 1 or 2, the handler
raises `KeyError` (an uncaught exception from the dict lookup); the code has
no `UnknownCategory` report and no drop-and-continue path. -/
theorem unknown_tag_key_error (f : NetFrame)
    (g0 : f.tag ≠ 0) (g1 : f.tag ≠ 1) (g2 : f.tag ≠ 2) :
    cmd_networking.on_callback_message f = .error .keyError := by
  unfold cmd_networking.on_callback_message
  simp [g1, msg_type, g0, g2]

open Instruments.cmd_networking in
/-- C5 witness: the amended theorem instantiated at tag 7. -/
theorem unknown_tag_key_error_witness :
    ((7 : Nat) ≠ 0 ∧ (7 : Nat) ≠ 1 ∧ (7 : Nat) ≠ 2) ∧
    cmd_networking.on_callback_message ⟨7, [.bytes [1, 2], .int 4]⟩ = .error .keyError :=
  ⟨⟨by decide, by decide, by decide⟩,
    unknown_tag_key_error ⟨7, [.bytes [1, 2], .int 4]⟩ (by decide) (by decide) (by decide)⟩

/-- C4 counterexample: a `ConnectionUpdate` frame carrying 9 values against the
10-name schema is not dropped with a reported mismatch — the handler succeeds
and emits a silently truncated 9-field record. -/
theorem connection_update_nine_values_emitted_cex :
    cmd_networking.on_callback_message
        ⟨2, [.int 1, .int 2, .int 3, .int 4, .int 5, .int 6, .int 7, .int 8, .int 9]⟩ =
      .ok (⟨"connection-update",
            [("RxPackets", .int 1), ("RxBytes", .int 2), ("TxPackets", .int 3),
             ("TxBytes", .int 4), ("RxDups", .int 5), ("RxOOO", .int 6),
             ("TxRetx", .int 7), ("MinRTT", .int 8), ("AvgRTT", .int 9)]⟩,
           ⟨2, [.int 1, .int 2, .int 3, .int 4, .int 5, .int 6, .int 7, .int 8, .int 9]⟩) := by
  decide

open Instruments.cmd_networking in
/-- C4 (amended): for every `ConnectionUpdate` frame with fewer values than the
10-name schema, the value-count mismatch is never detected: `zip` silently
truncates to the shorter side, the partial record is emitted, and — the
handler being stateless per frame — the next frame is processed exactly as it
would be on its own. -/
theorem short_frame_zip_truncates (vals : List PyVal) (h : vals.length < 10)
    (g : NetFrame) :
    ∃ hs, headersFor 2 = some hs ∧ hs.length = 10 ∧
      cmd_networking.on_callback_message ⟨2, vals⟩ =
        .ok (⟨"connection-update", hs.zip vals⟩, ⟨2, vals⟩) ∧
      (hs.zip vals).length = vals.length ∧
      cmd_networking.run [⟨2, vals⟩, g] =
        [.ok (⟨"connection-update", hs.zip vals⟩, ⟨2, vals⟩),
         cmd_networking.on_callback_message g] := by
  refine ⟨_, rfl, by decide, ?_, ?_, ?_⟩
  · unfold cmd_networking.on_callback_message
    simp [msg_type, headersFor]
  · simp
    omega
  · unfold cmd_networking.run
    simp
    unfold cmd_networking.on_callback_message
    simp [msg_type, headersFor]

open Instruments.cmd_networking in
/-- C4 witness: the amended theorem instantiated at a concrete 9-value frame. -/
theorem short_frame_zip_truncates_witness :
    (([PyVal.int 1, .int 2, .int 3, .int 4, .int 5, .int 6, .int 7, .int 8, .int 9]).length < 10) ∧
    (∃ hs, headersFor 2 = some hs ∧ hs.length = 10 ∧
      cmd_networking.on_callback_message
          ⟨2, [.int 1, .int 2, .int 3, .int 4, .int 5, .int 6, .int 7, .int 8, .int 9]⟩ =
        .ok (⟨"connection-update",
              hs.zip [.int 1, .int 2, .int 3, .int 4, .int 5, .int 6, .int 7, .int 8, .int 9]⟩,
             ⟨2, [.int 1, .int 2, .int 3, .int 4, .int 5, .int 6, .int 7, .int 8, .int 9]⟩) ∧
      (hs.zip [PyVal.int 1, .int 2, .int 3, .int 4, .int 5, .int 6, .int 7, .int 8, .int 9]).length = 9 ∧
      cmd_networking.run
          [⟨2, [.int 1, .int 2, .int 3, .int 4, .int 5, .int 6, .int 7, .int 8, .int 9]⟩,
           ⟨0, [.int 3, .str "en0"]⟩] =
        [.ok (⟨"connection-update",
               hs.zip [.int 1, .int 2, .int 3, .int 4, .int 5, .int 6, .int 7, .int 8, .int 9]⟩,
              ⟨2, [.int 1, .int 2, .int 3, .int 4, .int 5, .int 6, .int 7, .int 8, .int 9]⟩),
         cmd_networking.on_callback_message ⟨0, [.int 3, .str "en0"]⟩]) :=
  ⟨by decide,
    short_frame_zip_truncates
      [.int 1, .int 2, .int 3, .int 4, .int 5, .int 6, .int 7, .int 8, .int 9]
      (by decide) ⟨0, [.int 3, .str "en0"]⟩⟩

/-- C9 counterexample: processing is not free of side effects on the input
frame. A `ConnectionDetected` frame whose decoded local-address string is
itself 16 characters long ("192.168.100.1:80") is mutated in place, and
delivering the very same (now mutated) frame again does not yield an identical
result — the length test matches the string and `from_buffer_copy` raises
`TypeError`. -/
theorem networking_classification_not_pure_cex :
    cmd_networking.on_callback_message
        ⟨1, [.bytes [16, 2, 0, 80, 192, 168, 100, 1, 0, 0, 0, 0, 0, 0, 0, 0],
             .bytes [16, 2, 31, 144, 127, 0, 0, 1, 0, 0, 0, 0, 0, 0, 0, 0]]⟩ =
      .ok (⟨"connection-detected",
            [("LocalAddress", .str "192.168.100.1:80"),
             ("RemoteAddress", .str "127.0.0.1:8080")]⟩,
           ⟨1, [.str "192.168.100.1:80", .str "127.0.0.1:8080"]⟩) ∧
    (⟨1, [PyVal.str "192.168.100.1:80", .str "127.0.0.1:8080"]⟩ : cmd_networking.NetFrame) ≠
      ⟨1, [.bytes [16, 2, 0, 80, 192, 168, 100, 1, 0, 0, 0, 0, 0, 0, 0, 0],
           .bytes [16, 2, 31, 144, 127, 0, 0, 1, 0, 0, 0, 0, 0, 0, 0, 0]]⟩ ∧
    cmd_networking.on_callback_message
        ⟨1, [.str "192.168.100.1:80", .str "127.0.0.1:8080"]⟩ = .error .typeError := by
  exact ⟨by decide, by decide, by decide⟩

open Instruments.cmd_networking in
/-- C9 (amended): classification is a pure function of the frame value (equal
bytes give equal results), but it mutates the frame it is given: a
`ConnectionDetected` frame with two 16-byte address blobs comes back with its
first two values replaced in place by the decoded strings, so the stored frame
no longer equals the delivered one. -/
theorem connection_detected_mutates_in_place (b0 b1 : List Nat) (rest : List PyVal)
    (h0 : b0.length = 16) (h1 : b1.length = 16) :
    cmd_networking.on_callback_message ⟨1, .bytes b0 :: .bytes b1 :: rest⟩ =
      .ok (⟨"connection-detected",
            (["LocalAddress", "RemoteAddress", "InterfaceIndex", "Pid", "RecvBufferSize",
              "RecvBufferUsed", "SerialNumber", "Kind"]).zip
              (.str (sockAddr4Str b0) :: .str (sockAddr4Str b1) :: rest)⟩,
           ⟨1, .str (sockAddr4Str b0) :: .str (sockAddr4Str b1) :: rest⟩) ∧
    (⟨1, PyVal.str (sockAddr4Str b0) :: .str (sockAddr4Str b1) :: rest⟩ : NetFrame) ≠
      ⟨1, .bytes b0 :: .bytes b1 :: rest⟩ := by
  constructor
  · unfold cmd_networking.on_callback_message
    simp [decodeAddrPhase, pyLen, h0, decodeBoth, fromBufferCopy4, h1, msg_type, headersFor]
  · simp

open Instruments.cmd_networking in
/-- C9 witness: the amended theorem instantiated at two concrete 16-byte blobs. -/
theorem connection_detected_mutates_witness :
    (([16, 2, 0, 80, 192, 168, 100, 1, 0, 0, 0, 0, 0, 0, 0, 0] : List Nat).length = 16 ∧
      ([16, 2, 31, 144, 127, 0, 0, 1, 0, 0, 0, 0, 0, 0, 0, 0] : List Nat).length = 16) ∧
    (cmd_networking.on_callback_message
        ⟨1, .bytes [16, 2, 0, 80, 192, 168, 100, 1, 0, 0, 0, 0, 0, 0, 0, 0] ::
            .bytes [16, 2, 31, 144, 127, 0, 0, 1, 0, 0, 0, 0, 0, 0, 0, 0] :: [.int 3]⟩ =
      .ok (⟨"connection-detected",
            (["LocalAddress", "RemoteAddress", "InterfaceIndex", "Pid", "RecvBufferSize",
              "RecvBufferUsed", "SerialNumber", "Kind"]).zip
              (.str (sockAddr4Str [16, 2, 0, 80, 192, 168, 100, 1, 0, 0, 0, 0, 0, 0, 0, 0]) ::
               .str (sockAddr4Str [16, 2, 31, 144, 127, 0, 0, 1, 0, 0, 0, 0, 0, 0, 0, 0]) :: [.int 3])⟩,
           ⟨1, .str (sockAddr4Str [16, 2, 0, 80, 192, 168, 100, 1, 0, 0, 0, 0, 0, 0, 0, 0]) ::
               .str (sockAddr4Str [16, 2, 31, 144, 127, 0, 0, 1, 0, 0, 0, 0, 0, 0, 0, 0]) :: [.int 3]⟩) ∧
    (⟨1, PyVal.str (sockAddr4Str [16, 2, 0, 80, 192, 168, 100, 1, 0, 0, 0, 0, 0, 0, 0, 0]) ::
         .str (sockAddr4Str [16, 2, 31, 144, 127, 0, 0, 1, 0, 0, 0, 0, 0, 0, 0, 0]) :: [.int 3]⟩ : NetFrame) ≠
      ⟨1, .bytes [16, 2, 0, 80, 192, 168, 100, 1, 0, 0, 0, 0, 0, 0, 0, 0] ::
          .bytes [16, 2, 31, 144, 127, 0, 0, 1, 0, 0, 0, 0, 0, 0, 0, 0] :: [.int 3]⟩) :=
  ⟨⟨by decide, by decide⟩,
    connection_detected_mutates_in_place
      [16, 2, 0, 80, 192, 168, 100, 1, 0, 0, 0, 0, 0, 0, 0, 0]
      [16, 2, 31, 144, 127, 0, 0, 1, 0, 0, 0, 0, 0, 0, 0, 0]
      [.int 3] (by decide) (by decide)⟩

/-- Once the stop event is set, the session loop ignores every further frame. -/
theorem core_profile_session_stopped (fs : List stackshot.Frame) :
    stackshot.core_profile_session true fs = (true, []) := by
  induction fs with
  | nil => rfl
  | cons f fs ih => simp [stackshot.core_profile_session, ih]

/-- C2 counterexample: a selector buffer that contains the 4-byte signature
preceded by two zero bytes is not matched — the source tests
`buf.startswith(...)`, not a scan — so the session extracts nothing and never
stops. -/
theorem stackshot_embedded_signature_ignored_cex :
    stackshot.core_profile_session false [⟨true, [0, 0] ++ stackshot.signature ++ [1, 2, 3]⟩] =
      (false, []) ∧
    stackshot.on_callback_message ⟨true, [0, 0] ++ stackshot.signature ++ [1, 2, 3]⟩ =
      (false, none) := by
  exact ⟨by decide, by decide⟩

/-- C2 (amended): for every parse-error frame whose selector buffer starts with
the 4-byte signature, the session yields exactly one `CoreDumpRecord` (decoded
from that buffer), transitions to stopped, and every subsequently delivered
frame is ignored. -/
theorem stackshot_single_extraction (buf : List Nat) (fs : List stackshot.Frame)
    (h : stackshot.pyStartsWith buf stackshot.signature = true) :
    stackshot.core_profile_session false (⟨true, buf⟩ :: fs) =
      (true, [stackshot.kc_data_parse buf]) := by
  simp [stackshot.core_profile_session, stackshot.on_callback_message, h,
        core_profile_session_stopped]

/-- C2 witness: the amended theorem instantiated at a concrete
signature-bearing buffer followed by a frame that must be ignored. -/
theorem stackshot_single_extraction_witness :
    stackshot.pyStartsWith (stackshot.signature ++ [1, 2, 3]) stackshot.signature = true ∧
    stackshot.core_profile_session false
        [⟨true, stackshot.signature ++ [1, 2, 3]⟩, ⟨true, stackshot.signature ++ [9]⟩] =
      (true, [stackshot.kc_data_parse (stackshot.signature ++ [1, 2, 3])]) :=
  ⟨by decide,
    stackshot_single_extraction (stackshot.signature ++ [1, 2, 3])
      [⟨true, stackshot.signature ++ [9]⟩] (by decide)⟩

open Instruments.cmd_sysmontap in
/-- C1: whenever the processes-only flag is off and the callback completes, the
value handed to `print_json` is the `print_json` function object itself
(`print_json(print_json, format)`), never the decoded System+Processes
document the handler just built — confirming the defect the spec flags as the
known ambiguity (the decoded `data` is computed and then discarded). -/
theorem sysmontap_nonprocesses_emits_print_json_artifact
    (cfg : Cfg) (rows : List Row) (e : Option Emission)
    (hflag : cfg.processesOnly = false)
    (hok : cmd_sysmontap.on_callback_message cfg (.pylist rows) = .ok e) :
    e = some .printJsonItself ∧ ∀ d : List RowOut, e ≠ some (.document d) := by
  simp only [cmd_sysmontap.on_callback_message] at hok
  cases hfold : rows.foldlM (rowStep cfg) ([], []) with
  | error er =>
    rw [hfold] at hok
    cases hok
  | ok st =>
    rw [hfold, hflag] at hok
    simp at hok
    subst hok
    exact ⟨rfl, by intro d h; cases h⟩

open Instruments.cmd_sysmontap in
/-- C1 witness: the theorem instantiated at a concrete frame holding one row
with a System entry and one process. -/
theorem sysmontap_print_json_artifact_witness :
    ((⟨none, none, false, some "cpuUsage", ["pid", "name", "cpuUsage"], ["x"]⟩ : Cfg).processesOnly = false ∧
      cmd_sysmontap.on_callback_message
          ⟨none, none, false, some "cpuUsage", ["pid", "name", "cpuUsage"], ["x"]⟩
          (.pylist [⟨[("Type", .int 5)], some [(1, [.int 1, .str "proc", .int 50])], some [.int 7]⟩]) =
        .ok (some .printJsonItself)) ∧
    (some Emission.printJsonItself = some .printJsonItself ∧
      ∀ d : List RowOut, some Emission.printJsonItself ≠ some (.document d)) :=
  ⟨⟨rfl, by decide⟩,
    sysmontap_nonprocesses_emits_print_json_artifact
      ⟨none, none, false, some "cpuUsage", ["pid", "name", "cpuUsage"], ["x"]⟩
      [⟨[("Type", .int 5)], some [(1, [.int 1, .str "proc", .int 50])], some [.int 7]⟩]
      (some .printJsonItself) rfl (by decide)⟩

/-- Membership is invariant under the `list(set(...))` model. -/
theorem mem_pyListSet {a : String} : ∀ {l : List String},
    a ∈ cmd_sysmontap.pyListSet l ↔ a ∈ l := by
  intro l
  induction l with
  | nil => simp [cmd_sysmontap.pyListSet]
  | cons b l ih =>
    by_cases hab : a = b
    · subst hab
      simp [cmd_sysmontap.pyListSet]
    · simp [cmd_sysmontap.pyListSet, List.mem_filter, hab, ih]

/-- The `list(set(...))` model removes duplicates. -/
theorem nodup_pyListSet : ∀ l : List String, (cmd_sysmontap.pyListSet l).Nodup := by
  intro l
  induction l with
  | nil => simp [cmd_sysmontap.pyListSet]
  | cons b l ih =>
    refine List.nodup_cons.mpr ⟨?_, ih.filter _⟩
    intro hmem
    have := (List.mem_filter.mp hmem).2
    simp at this

/-- When some requested name is missing from the vocabulary, the membership
loop rejects a (first) name that is indeed missing. -/
theorem firstNotIn_some_of_bad {l vocab : List String} (h : ∃ a ∈ l, a ∉ vocab) :
    ∃ w, cmd_sysmontap.firstNotIn l vocab = some w ∧ w ∉ vocab := by
  obtain ⟨a, ha, hav⟩ := h
  cases hf : cmd_sysmontap.firstNotIn l vocab with
  | none =>
    exfalso
    have hnone := List.find?_eq_none.mp hf a ha
    simp at hnone
    exact hav hnone
  | some w =>
    refine ⟨w, rfl, ?_⟩
    have hw := List.find?_some hf
    simpa using hw

open Instruments.cmd_sysmontap in
/-- C6: if any requested process or system attribute name is missing from the
corresponding device vocabulary, setup stops at an unknown name (reported via
`log.warn` with that name) and the command returns before
`rpc.sysmontap(...)`: the session never starts streaming and no frame is ever
delivered to the callback. -/
theorem unknown_attribute_fails_before_streaming
    (pv sv : List String) (procReq sysReq : Option (List String))
    (cfg : Cfg) (frames : List Parsed)
    (H : (∃ l, procReq = some l ∧ ∃ a ∈ l, a ∉ pv) ∨
         (∃ l, sysReq = some l ∧ ∃ a ∈ l, a ∉ sv)) :
    (∃ w, cmd_sysmontap.setup pv sv procReq sysReq = .unknownAttr w ∧ (w ∉ pv ∨ w ∉ sv)) ∧
    cmd_sysmontap.run pv sv procReq sysReq cfg frames = [] := by
  have key : ∃ w, cmd_sysmontap.setup pv sv procReq sysReq = .unknownAttr w ∧
      (w ∉ pv ∨ w ∉ sv) := by
    rcases H with ⟨l, hpr, hbad⟩ | ⟨l, hsr, hbad⟩
    · subst hpr
      have hbad' : ∃ a ∈ resolvedProcFilter l, a ∉ pv := by
        obtain ⟨a, ha, hav⟩ := hbad
        exact ⟨a, mem_pyListSet.mpr (List.mem_append_left _ ha), hav⟩
      obtain ⟨w, hw, hwv⟩ := firstNotIn_some_of_bad hbad'
      exact ⟨w, by simp [cmd_sysmontap.setup, hw], Or.inl hwv⟩
    · subst hsr
      obtain ⟨w, hw, hwv⟩ := firstNotIn_some_of_bad hbad
      cases hpr : procReq with
      | none =>
        exact ⟨w, by simp [cmd_sysmontap.setup, sysPhase, hw], Or.inr hwv⟩
      | some req =>
        cases hf : firstNotIn (resolvedProcFilter req) pv with
        | some w2 =>
          refine ⟨w2, by simp [cmd_sysmontap.setup, hf], Or.inl ?_⟩
          have hw2 := List.find?_some hf
          simpa using hw2
        | none =>
          exact ⟨w, by simp [cmd_sysmontap.setup, hf, sysPhase, hw], Or.inr hwv⟩
  refine ⟨key, ?_⟩
  obtain ⟨w, hw, _⟩ := key
  simp [cmd_sysmontap.run, hw]

open Instruments.cmd_sysmontap in
/-- C6 witness: requesting the unknown name "bogusAttr" against the vocabulary
`pid, name, cpuUsage, memResidentSize` fails before any of the delivered
frames is processed. -/
theorem unknown_attribute_fails_witness :
    ((∃ l, (some ["bogusAttr"] : Option (List String)) = some l ∧
        ∃ a ∈ l, a ∉ ["pid", "name", "cpuUsage", "memResidentSize"]) ∨
      (∃ l, (none : Option (List String)) = some l ∧ ∃ a ∈ l, a ∉ ["totalCpu"])) ∧
    ((∃ w, cmd_sysmontap.setup ["pid", "name", "cpuUsage", "memResidentSize"] ["totalCpu"]
          (some ["bogusAttr"]) none = .unknownAttr w ∧
        (w ∉ ["pid", "name", "cpuUsage", "memResidentSize"] ∨ w ∉ ["totalCpu"])) ∧
      cmd_sysmontap.run ["pid", "name", "cpuUsage", "memResidentSize"] ["totalCpu"]
          (some ["bogusAttr"]) none ⟨none, none, false, none, [], []⟩
          [.pylist [⟨[], some [(1, [.int 1, .str "p", .int 2])], none⟩]] = []) :=
  ⟨Or.inl ⟨["bogusAttr"], rfl, "bogusAttr", by decide, by decide⟩,
    unknown_attribute_fails_before_streaming
      ["pid", "name", "cpuUsage", "memResidentSize"] ["totalCpu"]
      (some ["bogusAttr"]) none ⟨none, none, false, none, [], []⟩
      [.pylist [⟨[], some [(1, [.int 1, .str "p", .int 2])], none⟩]]
      (Or.inl ⟨["bogusAttr"], rfl, "bogusAttr", by decide, by decide⟩)⟩

/-- C3 counterexample: the resolved process schema is not the forced-in subset
in device-advertised order. The code's result is `list(set(...))` of the
requested names plus `name`/`pid` and never consults the vocabulary for
ordering, so for the two vocabularies below — equal as sets but advertised in
different orders — it cannot match the device order of both; under any
admissible set-iteration order at least one disjunct holds, and under the
modelled order the first does. -/
theorem proc_schema_order_not_device_order_cex :
    cmd_sysmontap.resolvedProcFilter ["memResidentSize", "cpuUsage"] ≠
        cmd_sysmontap.specResolvedProcSchema ["pid", "name", "cpuUsage", "memResidentSize"]
          ["memResidentSize", "cpuUsage"] ∨
    cmd_sysmontap.resolvedProcFilter ["memResidentSize", "cpuUsage"] ≠
        cmd_sysmontap.specResolvedProcSchema ["memResidentSize", "cpuUsage", "name", "pid"]
          ["memResidentSize", "cpuUsage"] := by
  decide

open Instruments.cmd_sysmontap in
/-- C3 (amended): for every requested subset whose names (together with the
forced-in `pid` and `name`) are in the device vocabulary, setup succeeds and
the resolved process schema contains exactly the requested names plus `pid`
and `name`, duplicates removed; its order is the set-iteration order of
`list(set(...))`, not the device-advertised order. -/
theorem proc_schema_membership_resolved
    (vocab sysVocab req : List String)
    (hpid : "pid" ∈ vocab) (hname : "name" ∈ vocab) (hreq : ∀ a ∈ req, a ∈ vocab) :
    (∀ a, a ∈ resolvedProcFilter req ↔ (a ∈ req ∨ a = "name" ∨ a = "pid")) ∧
    (resolvedProcFilter req).Nodup ∧
    cmd_sysmontap.setup vocab sysVocab (some req) none =
      .streaming (resolvedProcFilter req) sysVocab := by
  have hmem : ∀ a, a ∈ resolvedProcFilter req ↔ (a ∈ req ∨ a = "name" ∨ a = "pid") := by
    intro a
    unfold resolvedProcFilter
    rw [mem_pyListSet]
    simp
  refine ⟨hmem, nodup_pyListSet _, ?_⟩
  have hnone : firstNotIn (resolvedProcFilter req) vocab = none := by
    apply List.find?_eq_none.mpr
    intro a ha
    rcases (hmem a).mp ha with h | h | h
    · simp [hreq a h]
    · simp [h, hname]
    · simp [h, hpid]
  simp [cmd_sysmontap.setup, hnone, sysPhase]

open Instruments.cmd_sysmontap in
/-- C3 witness: the amended theorem instantiated at the spec's example —
requesting `cpuUsage` against the vocabulary `pid, name, cpuUsage,
memResidentSize` resolves to exactly `pid`, `name` and `cpuUsage`. -/
theorem proc_schema_membership_witness :
    ("pid" ∈ ["pid", "name", "cpuUsage", "memResidentSize"] ∧
      "name" ∈ ["pid", "name", "cpuUsage", "memResidentSize"] ∧
      ∀ a ∈ ["cpuUsage"], a ∈ ["pid", "name", "cpuUsage", "memResidentSize"]) ∧
    ((∀ a, a ∈ resolvedProcFilter ["cpuUsage"] ↔
        (a ∈ ["cpuUsage"] ∨ a = "name" ∨ a = "pid")) ∧
      (resolvedProcFilter ["cpuUsage"]).Nodup ∧
      cmd_sysmontap.setup ["pid", "name", "cpuUsage", "memResidentSize"] ["totalCpu"]
          (some ["cpuUsage"]) none =
        .streaming (resolvedProcFilter ["cpuUsage"]) ["totalCpu"]) :=
  ⟨⟨by decide, by decide, by decide⟩,
    proc_schema_membership_resolved ["pid", "name", "cpuUsage", "memResidentSize"]
      ["totalCpu"] ["cpuUsage"] (by decide) (by decide) (by decide)⟩

/-- Inserting an element whose key misses the target value does not disturb the
filtered-by-key sublist. -/
theorem filter_orderedInsert_of_neg {α : Type} {r : α → α → Prop} [DecidableRel r]
    (p : α → Bool) (x : α) (hx : p x = false) :
    ∀ ys : List α, (List.orderedInsert r x ys).filter p = ys.filter p := by
  intro ys
  induction ys with
  | nil => simp [hx]
  | cons y ys ih =>
    by_cases h : r x y
    · simp [List.orderedInsert, h, hx]
    · simp [List.orderedInsert, h, List.filter_cons, ih]

/-- Inserting an element bearing the target key value into a descending-sorted
list places it in front of every already-present element with that key value:
processed from the right, this is exactly stability. -/
theorem filter_orderedInsert_stable {α : Type} (k : α → Int) (x : α) (v : Int)
    (hx : (k x == v) = true) :
    ∀ ys : List α, List.Sorted (fun a b : α => k b ≤ k a) ys →
      ((List.orderedInsert (fun a b : α => k b ≤ k a) x ys).filter (fun z => k z == v)) =
        x :: ys.filter (fun z => k z == v) := by
  intro ys
  induction ys with
  | nil =>
    intro _
    simp [hx]
  | cons y ys ih =>
    intro hs
    by_cases h : k y ≤ k x
    · simp [List.orderedInsert, h, hx]
    · have hxv : k x = v := by simpa using hx
      have hy : (k y == v) = false := by
        simp only [beq_eq_false_iff_ne, ne_eq]
        omega
      simp [List.orderedInsert, h, hy, ih hs.of_cons]

/-- The elements carrying any fixed key value appear in the stable descending
sort in exactly their original relative order. -/
theorem filter_insertionSort_stable_key {α : Type} (k : α → Int) :
    ∀ (l : List α) (v : Int),
      ((List.insertionSort (fun a b : α => k b ≤ k a) l).filter (fun z => k z == v)) =
        l.filter (fun z => k z == v) := by
  intro l
  induction l with
  | nil =>
    intro v
    rfl
  | cons x l ih =>
    intro v
    have hsorted : List.Sorted (fun a b : α => k b ≤ k a)
        (List.insertionSort (fun a b : α => k b ≤ k a) l) := by
      haveI : IsTotal α (fun a b : α => k b ≤ k a) := ⟨fun a b => le_total (k b) (k a)⟩
      haveI : IsTrans α (fun a b : α => k b ≤ k a) := ⟨fun a b c hab hbc => le_trans hbc hab⟩
      exact List.sorted_insertionSort _ l
    by_cases hx : (k x == v) = true
    · rw [List.insertionSort, filter_orderedInsert_stable k x v hx _ hsorted, ih v]
      simp [List.filter_cons, hx]
    · have hx' : (fun z : α => k z == v) x = false := by
        simpa using hx
      rw [List.insertionSort,
        filter_orderedInsert_of_neg (fun z : α => k z == v) x hx', ih v]
      simp [List.filter_cons, hx]

open Instruments.cmd_sysmontap in
/-- C8: for every list of process items with numeric (or absent) sort-key
values, `sorted(..., key=lambda d: d[1].get(sort, 0), reverse=True)` is a
permutation of the input in descending key order; items with equal keys keep
their relative input order; an item lacking the key gets value 0 and never
errors; and the spec's example — A:10, B:10, C:5 in device order A, B, C —
sorts to A, B, C. -/
theorem process_sort_descending_stable
    (s : String) (l : List (String × ProcRecord))
    (_hnum : ∀ it ∈ l, (sortKeyVal (some s) it).isIntVal = true) :
    (pySortedDesc (some s) l).Perm l ∧
    List.Sorted (fun a b => keyInt (some s) b ≤ keyInt (some s) a) (pySortedDesc (some s) l) ∧
    (∀ v : Int,
      ((pySortedDesc (some s) l).filter (fun it => keyInt (some s) it == v)) =
        l.filter (fun it => keyInt (some s) it == v)) ∧
    (∀ it ∈ l, dictGet it.2 s = none → sortKeyVal (some s) it = .int 0) ∧
    pySortedDesc (some "cpuUsage")
        [("A", [("cpuUsage", PyVal.int 10)]), ("B", [("cpuUsage", PyVal.int 10)]),
         ("C", [("cpuUsage", PyVal.int 5)])] =
      [("A", [("cpuUsage", PyVal.int 10)]), ("B", [("cpuUsage", PyVal.int 10)]),
       ("C", [("cpuUsage", PyVal.int 5)])] := by
  refine ⟨List.perm_insertionSort _ l, ?_, ?_, ?_, by decide⟩
  · haveI : IsTotal (String × ProcRecord)
        (fun a b => keyInt (some s) b ≤ keyInt (some s) a) :=
      ⟨fun a b => le_total (keyInt (some s) b) (keyInt (some s) a)⟩
    haveI : IsTrans (String × ProcRecord)
        (fun a b => keyInt (some s) b ≤ keyInt (some s) a) :=
      ⟨fun a b c hab hbc => le_trans hbc hab⟩
    exact List.sorted_insertionSort _ l
  · intro v
    exact filter_insertionSort_stable_key (keyInt (some s)) l v
  · intro it hmem hnone
    simp [sortKeyVal, hnone]

open Instruments.cmd_sysmontap in
/-- C8 witness: the theorem instantiated at the spec's example list extended by
a record missing the sort key. -/
theorem process_sort_descending_witness :
    (∀ it ∈ [("A", [("cpuUsage", PyVal.int 10)]), ("B", [("cpuUsage", PyVal.int 10)]),
        ("C", [("cpuUsage", PyVal.int 5)]), ("D", [("other", PyVal.int 3)])],
      (sortKeyVal (some "cpuUsage") it).isIntVal = true) ∧
    ((pySortedDesc (some "cpuUsage")
        [("A", [("cpuUsage", PyVal.int 10)]), ("B", [("cpuUsage", PyVal.int 10)]),
         ("C", [("cpuUsage", PyVal.int 5)]), ("D", [("other", PyVal.int 3)])]).Perm
      [("A", [("cpuUsage", PyVal.int 10)]), ("B", [("cpuUsage", PyVal.int 10)]),
       ("C", [("cpuUsage", PyVal.int 5)]), ("D", [("other", PyVal.int 3)])] ∧
    List.Sorted (fun a b => keyInt (some "cpuUsage") b ≤ keyInt (some "cpuUsage") a)
      (pySortedDesc (some "cpuUsage")
        [("A", [("cpuUsage", PyVal.int 10)]), ("B", [("cpuUsage", PyVal.int 10)]),
         ("C", [("cpuUsage", PyVal.int 5)]), ("D", [("other", PyVal.int 3)])]) ∧
    (∀ v : Int,
      ((pySortedDesc (some "cpuUsage")
          [("A", [("cpuUsage", PyVal.int 10)]), ("B", [("cpuUsage", PyVal.int 10)]),
           ("C", [("cpuUsage", PyVal.int 5)]), ("D", [("other", PyVal.int 3)])]).filter
        (fun it => keyInt (some "cpuUsage") it == v)) =
        ([("A", [("cpuUsage", PyVal.int 10)]), ("B", [("cpuUsage", PyVal.int 10)]),
          ("C", [("cpuUsage", PyVal.int 5)]), ("D", [("other", PyVal.int 3)])]).filter
          (fun it => keyInt (some "cpuUsage") it == v)) ∧
    (∀ it ∈ [("A", [("cpuUsage", PyVal.int 10)]), ("B", [("cpuUsage", PyVal.int 10)]),
        ("C", [("cpuUsage", PyVal.int 5)]), ("D", [("other", PyVal.int 3)])],
      dictGet it.2 "cpuUsage" = none → sortKeyVal (some "cpuUsage") it = .int 0) ∧
    pySortedDesc (some "cpuUsage")
        [("A", [("cpuUsage", PyVal.int 10)]), ("B", [("cpuUsage", PyVal.int 10)]),
         ("C", [("cpuUsage", PyVal.int 5)])] =
      [("A", [("cpuUsage", PyVal.int 10)]), ("B", [("cpuUsage", PyVal.int 10)]),
       ("C", [("cpuUsage", PyVal.int 5)])]) :=
  ⟨by decide,
    process_sort_descending_stable "cpuUsage"
      [("A", [("cpuUsage", PyVal.int 10)]), ("B", [("cpuUsage", PyVal.int 10)]),
       ("C", [("cpuUsage", PyVal.int 5)]), ("D", [("other", PyVal.int 3)])]
      (by decide)⟩

end Instruments
